import Mathlib

/-!
Verification of the Sv2 Standard Channel state machine
(`channels-sv2/src/server/standard.rs`) and of the Noise NX responder
(`noise-sv2/src/responder.rs`).

The two Rust source files are embedded shallowly below.  Machine integers
are modelled as `Nat` with an explicit `% 2^w` where overflow matters;
`f32`/`f64` hashrates are modelled as `ℚ`; fallible operations return
`Except`; methods taking `&mut self` are modelled by explicit state
passing, returning a `(result, new state)` pair.  Components of this
repository that are not part of the two embedded files (the job store,
the job factory, share accounting and the target-arithmetic helpers)
are modelled from the natural-language specification; each such
definition carries a doc comment starting with `Modelled from the spec:`.
External library primitives (double SHA-256, compact-target decoding,
secp256k1, ChaCha20-Poly1305, Bitcoin consensus encoding) are abstracted
as parameters, constrained only by their documented length contracts.
-/

set_option maxRecDepth 8000

namespace Sv2

/-- Error type of `StandardChannelError` from `channels-sv2/src/server/error.rs`,
restricted to the variants used by the embedded code. -/
inductive StandardChannelError where
  | InvalidNominalHashrate
  | RequestedMaxTargetOutOfRange
  | NewExtranoncePrefixTooLarge
  | ChainTipNotSet
  | TemplateIdNotFound
  | JobFactoryError
deriving DecidableEq, Repr

/-- Error type of `ShareValidationError` from
`channels-sv2/src/server/share_accounting.rs`. -/
inductive ShareValidationError where
  | Stale
  | InvalidJobId
  | NoChainTip
  | DuplicateShare
  | DoesNotMeetTarget
  | InvalidCoinbase
deriving DecidableEq, Repr

/-- Result type of `ShareValidationResult` from
`channels-sv2/src/server/share_accounting.rs`.  A 256-bit quantity
(hash, target) is a `Nat`; serialized bytes are `List Nat`. -/
inductive ShareValidationResult where
  | Valid
  | ValidWithAcknowledgement (lastSequenceNumber sharesAccepted shareWorkSum : Nat)
  | BlockFound (templateId : Option Nat) (coinbase : List Nat)
deriving DecidableEq, Repr

/-- Snapshot `ChainTip` of prev-hash, nBits and header timestamp
(`channels-sv2/src/chain_tip.rs`; the struct is a plain immutable triple). -/
structure ChainTip where
  prevHash : List Nat
  nbits : Nat
  headerTimestamp : Nat
deriving DecidableEq, Repr

/-- Upstream template message `NewTemplate`
(`template_distribution_sv2`), with the fields the embedded code reads. -/
structure NewTemplate where
  templateId : Nat
  futureTemplate : Bool
  version : Nat
  coinbaseTxVersion : Nat
  coinbasePfx : List Nat
  coinbaseTxInputSequence : Nat
  coinbaseTxValueRemaining : Nat
  coinbaseTxOutputsCount : Nat
  coinbaseTxOutputs : List Nat
  coinbaseTxLocktime : Nat
  merklePath : List (List Nat)
deriving DecidableEq, Repr

/-- Transaction output (`bitcoin::TxOut`): amount in sats and script bytes. -/
structure TxOut where
  value : Nat
  scriptPubkey : List Nat
deriving DecidableEq, Repr

/-- Upstream `SetNewPrevHash` message (`template_distribution_sv2`). -/
structure SetNewPrevHash where
  templateId : Nat
  prevHash : List Nat
  headerTimestamp : Nat
  nBits : Nat
  target : List Nat
deriving DecidableEq, Repr

/-- Share submission message `SubmitSharesStandard` (`mining_sv2`). -/
structure SubmitSharesStandard where
  channelId : Nat
  sequenceNumber : Nat
  jobId : Nat
  nonce : Nat
  ntime : Nat
  version : Nat
deriving DecidableEq, Repr

/-- Realized work unit `StandardJob`
(`channels-sv2/src/server/jobs/standard.rs`), with the fields the
embedded code reads: the job message data plus the retained provenance
(template, extranonce bytes, coinbase outputs) used for coinbase
reconstruction.  The 32-byte merkle root is a 256-bit `Nat`. -/
structure StandardJob where
  jobId : Nat
  channelId : Nat
  merkleRoot : Nat
  version : Nat
  minNtime : Option Nat
  template : NewTemplate
  extranoncePfx : List Nat
  coinbaseOutputs : List TxOut
deriving DecidableEq, Repr

/-- Placeholder job backing the `expect` calls of the source, which are
only reached on job-store invariant violations. -/
def defaultStandardJob : StandardJob :=
  { jobId := 0, channelId := 0, merkleRoot := 0, version := 0, minNtime := none,
    template := { templateId := 0, futureTemplate := false, version := 0,
                  coinbaseTxVersion := 0, coinbasePfx := [], coinbaseTxInputSequence := 0,
                  coinbaseTxValueRemaining := 0, coinbaseTxOutputsCount := 0,
                  coinbaseTxOutputs := [], coinbaseTxLocktime := 0, merklePath := [] },
    extranoncePfx := [], coinbaseOutputs := [] }

/-- Modelled from the spec: `JobStore` contents (§3, §4.3) — the default
job store of `channels-sv2/src/server/jobs/job_store.rs` is not under
`src/`.  Four collections: at most one active job, future jobs keyed by
`template_id`, past and stale jobs keyed by `job_id`, plus the
`future_template_to_job_id` mapping recorded by `add_future_job`. -/
structure JobStore where
  active : Option StandardJob
  future : List (Nat × StandardJob)
  futureTemplateToJobId : List (Nat × Nat)
  past : List (Nat × StandardJob)
  stale : List (Nat × StandardJob)
deriving DecidableEq, Repr

/-- Modelled from the spec: an empty job store (`DefaultJobStore::new`). -/
def JobStore.empty : JobStore :=
  { active := none, future := [], futureTemplateToJobId := [], past := [], stale := [] }

/-- Modelled from the spec: `add_future_job(template_id, job)` (§4.3) —
insert into `future`; also record
`future_template_to_job_id[template_id] = job.job_id`. -/
def JobStore.add_future_job (js : JobStore) (templateId : Nat) (job : StandardJob) : JobStore :=
  { js with future := (templateId, job) :: js.future,
            futureTemplateToJobId := (templateId, job.jobId) :: js.futureTemplateToJobId }

/-- Modelled from the spec: `add_active_job(job)` (§4.3) — move the
current active job (if any) into `past`; set `active = job`. -/
def JobStore.add_active_job (js : JobStore) (job : StandardJob) : JobStore :=
  { js with past := (match js.active with
                     | some a => (a.jobId, a) :: js.past
                     | none => js.past),
            active := some job }

/-- Modelled from the spec: `activate_future_job(template_id,
header_timestamp)` (§4.3) — remove from `future` by `template_id`
(failing with `TemplateIdNotFound` when absent), apply
`min_ntime = header_timestamp`, move the prior active ∪ past into
`stale` (after first clearing the prior `stale`), empty `past` and set
the job as `active`. -/
def JobStore.activate_future_job (js : JobStore) (templateId headerTimestamp : Nat) :
    Except StandardChannelError JobStore :=
  match js.future.lookup templateId with
  | none => .error .TemplateIdNotFound
  | some job =>
      .ok { js with
            active := some { job with minNtime := some headerTimestamp },
            future := js.future.filter (fun p => p.1 != templateId),
            past := [],
            stale := js.past ++ (match js.active with
                                 | some a => [(a.jobId, a)]
                                 | none => []) }

/-- Modelled from the spec: `ShareAccounting` fields (§3) — the share
accounting module of `channels-sv2/src/server/share_accounting.rs` is
not under `src/`.  `seen_shares` is the set of 32-byte share hashes
(as 256-bit `Nat`s); `best_diff` is `f64` in the source and is carried
here abstractly as a `Nat` produced by the abstract difficulty map. -/
structure ShareAccounting where
  seenShares : List Nat
  sharesAccepted : Nat
  shareWorkSum : Nat
  bestDiff : Nat
  lastSequenceNumber : Nat
  batchSize : Nat
deriving DecidableEq, Repr

/-- Modelled from the spec: `ShareAccounting::new(batch_size)`. -/
def ShareAccounting.new (batchSize : Nat) : ShareAccounting :=
  { seenShares := [], sharesAccepted := 0, shareWorkSum := 0, bestDiff := 0,
    lastSequenceNumber := 0, batchSize := batchSize }

/-- Modelled from the spec: `is_share_seen(hash)` (§4.4) — exact hash
membership in the seen set. -/
def ShareAccounting.is_share_seen (sa : ShareAccounting) (hash : Nat) : Bool :=
  sa.seenShares.contains hash

/-- Modelled from the spec: `update_share_accounting(difficulty,
sequence_number, hash)` (§4.4) — inserts the hash into the seen set,
increments `shares_accepted`, adds `difficulty` to `share_work_sum` and
updates `last_sequence_number`. -/
def ShareAccounting.update_share_accounting (sa : ShareAccounting)
    (difficulty sequenceNumber hash : Nat) : ShareAccounting :=
  { sa with seenShares := hash :: sa.seenShares,
            sharesAccepted := sa.sharesAccepted + 1,
            shareWorkSum := sa.shareWorkSum + difficulty,
            lastSequenceNumber := sequenceNumber }

/-- Modelled from the spec: `update_best_diff` (§4.4) — monotone-max update. -/
def ShareAccounting.update_best_diff (sa : ShareAccounting) (diff : Nat) : ShareAccounting :=
  { sa with bestDiff := max sa.bestDiff diff }

/-- Modelled from the spec: `should_acknowledge()` (§4.4) — true iff
`shares_accepted % batch_size == 0` and `shares_accepted > 0`. -/
def ShareAccounting.should_acknowledge (sa : ShareAccounting) : Bool :=
  sa.sharesAccepted % sa.batchSize == 0 && sa.sharesAccepted > 0

/-- Modelled from the spec: `hash_rate_to_target(h, shares_per_minute)`
(§4.1) — the target-arithmetic module `channels-sv2/src/target.rs` is not
under `src/`.  Fails when `h ≤ 0` or `shares_per_minute ≤ 0` (the spec's
NaN/∞ failure cases have no `ℚ` counterpart); otherwise returns
`2^256 / (h · 60 / shares_per_minute) − 1` computed exactly.  The
quotient `2^256 · spm / (60 · h)` is positive, so its floor is the
truncating `Int` division of numerator by denominator. -/
def hash_rate_to_target (h sharesPerMinute : ℚ) : Except StandardChannelError Nat :=
  if h ≤ 0 ∨ sharesPerMinute ≤ 0 then .error .InvalidNominalHashrate
  else .ok ((((2 ^ 256 : Int) * sharesPerMinute.num * (h.den : Int)) /
             (60 * h.num * (sharesPerMinute.den : Int))).toNat - 1)

/-- Bitcoin block header as assembled by `validate_share`
(standard.rs, lines 389-396): version and nonce from the submission,
previous hash and nBits from the chain tip, merkle root from the job,
time from the submission's ntime. -/
structure Header where
  version : Nat
  prevBlockhash : List Nat
  merkleRoot : Nat
  time : Nat
  bits : Nat
  nonce : Nat
deriving DecidableEq, Repr

/-- Coinbase transaction as assembled by the block-found branch of
`validate_share` (standard.rs, lines 428-443): a single input with null
previous output, `script_sig = coinbase_prefix ++ extranonce_prefix`,
the template's input sequence, a witness of 32 zero bytes, and the job's
coinbase outputs. -/
structure CoinbaseTx where
  version : Nat
  lockTime : Nat
  scriptSig : List Nat
  sequence : Nat
  witness : List (List Nat)
  outputs : List TxOut
deriving DecidableEq, Repr

/-- External library primitives used by the embedded code, abstracted as
functions: `dsha` is the double SHA-256 of the serialized 80-byte header
interpreted as a 256-bit integer (`Header::block_hash` plus the
`Target` conversion); `networkTargetOf` is compact-target decoding
(`bitcoin::Target::from_compact`); `ttdU` is
`target_to_difficulty(t) as u64`; `ttdF` abstracts the `f64` difficulty
used for the best-diff update; `encodeTx` is Bitcoin consensus encoding;
`merkleRootOf` is the merkle-root fold performed by the job factory. -/
structure SharePrims where
  dsha : Header → Nat
  networkTargetOf : Nat → Nat
  ttdU : Nat → Nat
  ttdF : Nat → Nat
  encodeTx : CoinbaseTx → List Nat
  merkleRootOf : List Nat → NewTemplate → List TxOut → Nat

/-- Sum of the values of a list of transaction outputs. -/
def sumOutputs (outputs : List TxOut) : Nat :=
  (outputs.map TxOut.value).sum

/-- Modelled from the spec: `JobFactory::new_standard_job` (§4.2) — the
job factory of `channels-sv2/src/server/jobs/factory.rs` is not under
`src/`.  Allocates the next monotone `job_id`, validates that the reward
outputs sum to at most `coinbase_tx_value_remaining` (else
`JobFactoryError`), computes the merkle root (abstracted), and produces
a future job (no `min_ntime`) when `chain_tip` is `None`, otherwise an
active job with `min_ntime = chain_tip.header_timestamp`.  Returns the
job together with the advanced counter. -/
def new_standard_job (P : SharePrims) (nextJobId channelId : Nat)
    (chainTip : Option ChainTip) (extranoncePfx : List Nat) (template : NewTemplate)
    (coinbaseRewardOutputs : List TxOut) :
    Except StandardChannelError (StandardJob × Nat) :=
  if sumOutputs coinbaseRewardOutputs > template.coinbaseTxValueRemaining then
    .error .JobFactoryError
  else
    .ok ({ jobId := nextJobId, channelId := channelId,
           merkleRoot := P.merkleRootOf extranoncePfx template coinbaseRewardOutputs,
           version := template.version,
           minNtime := chainTip.map ChainTip.headerTimestamp,
           template := template, extranoncePfx := extranoncePfx,
           coinbaseOutputs := coinbaseRewardOutputs }, nextJobId + 1)

/-- State of `StandardChannel` (standard.rs, lines 47-59).  Targets are
256-bit `Nat`s; the `f32` nominal hashrate and expected share rate are
`ℚ`; `jobFactoryNextId` is the job factory's monotone `job_id` counter. -/
structure ChannelState where
  channelId : Nat
  userIdentity : String
  extranoncePfx : List Nat
  requestedMaxTarget : Nat
  target : Nat
  nominalHashrate : ℚ
  shareAccounting : ShareAccounting
  expectedSharePerMinute : ℚ
  jobStore : JobStore
  jobFactoryNextId : Nat
  chainTip : Option ChainTip
deriving DecidableEq, Repr

namespace StandardChannel

/-- Constructor `StandardChannel::new` (standard.rs, lines 63-100):
derive the target from the nominal hashrate (failing with
`InvalidNominalHashrate`), reject `target > requested_max_target` with
`RequestedMaxTargetOutOfRange`, and otherwise build the state with a
fresh share accounting, a fresh job factory and no chain tip. -/
def new (channelId : Nat) (userIdentity : String) (extranoncePfx : List Nat)
    (requestedMaxTarget : Nat) (nominalHashrate : ℚ) (shareBatchSize : Nat)
    (expectedSharePerMinute : ℚ) (jobStore : JobStore) :
    Except StandardChannelError ChannelState :=
  match hash_rate_to_target nominalHashrate expectedSharePerMinute with
  | .error _ => .error .InvalidNominalHashrate
  | .ok calculatedTarget =>
      if calculatedTarget > requestedMaxTarget then
        .error .RequestedMaxTargetOutOfRange
      else
        .ok { channelId := channelId, userIdentity := userIdentity,
              extranoncePfx := extranoncePfx,
              requestedMaxTarget := requestedMaxTarget,
              target := calculatedTarget,
              nominalHashrate := nominalHashrate,
              shareAccounting := ShareAccounting.new shareBatchSize,
              expectedSharePerMinute := expectedSharePerMinute,
              jobStore := jobStore,
              jobFactoryNextId := 1,
              chainTip := none }

/-- Operation `StandardChannel::update_channel` (standard.rs, lines
150-202): recompute the target from the new nominal hashrate and the
cached `expected_share_per_minute` (failing with
`InvalidNominalHashrate`); default `requested_max_target` to the cached
value when `None`; fail with `RequestedMaxTargetOutOfRange` when the new
target exceeds it; only then assign `target`, `nominal_hashrate` and
`requested_max_target`.  The debug logging of the source is pure and
elided. -/
def update_channel (ch : ChannelState) (nominalHashrate : ℚ)
    (requestedMaxTarget : Option Nat) :
    Except StandardChannelError Unit × ChannelState :=
  match hash_rate_to_target nominalHashrate ch.expectedSharePerMinute with
  | .error _ => (.error .InvalidNominalHashrate, ch)
  | .ok targetU256 =>
      let requestedMax := requestedMaxTarget.getD ch.requestedMaxTarget
      if targetU256 > requestedMax then
        (.error .RequestedMaxTargetOutOfRange, ch)
      else
        (.ok (), { ch with target := targetU256,
                           nominalHashrate := nominalHashrate,
                           requestedMaxTarget := requestedMax })

/-- Operation `StandardChannel::on_new_template` (standard.rs, lines
249-290): a future template is turned into a job with no chain tip and
stored among the future jobs; a non-future template requires the chain
tip to be set (else `ChainTipNotSet`) and installs the job as active.
Factory failures propagate as `JobFactoryError` and leave the state
unchanged. -/
def on_new_template (P : SharePrims) (ch : ChannelState) (template : NewTemplate)
    (coinbaseRewardOutputs : List TxOut) :
    Except StandardChannelError Unit × ChannelState :=
  match template.futureTemplate with
  | true =>
      match new_standard_job P ch.jobFactoryNextId ch.channelId none ch.extranoncePfx
              template coinbaseRewardOutputs with
      | .error e => (.error e, ch)
      | .ok (newJob, nextId) =>
          (.ok (), { ch with jobFactoryNextId := nextId,
                             jobStore := ch.jobStore.add_future_job template.templateId newJob })
  | false =>
      match ch.chainTip with
      | none => (.error .ChainTipNotSet, ch)
      | some chainTip =>
          match new_standard_job P ch.jobFactoryNextId ch.channelId (some chainTip)
                  ch.extranoncePfx template coinbaseRewardOutputs with
          | .error e => (.error e, ch)
          | .ok (newJob, nextId) =>
              (.ok (), { ch with jobFactoryNextId := nextId,
                                 jobStore := ch.jobStore.add_active_job newJob })

/-- Operation `StandardChannel::on_set_new_prev_hash` (standard.rs,
lines 300-326): when the future-jobs collection is empty the call fails
with `TemplateIdNotFound` and nothing changes; otherwise
`activate_future_job` is invoked — its `Result` is discarded by the
source, so a failed activation (missing `template_id`) leaves the job
store as it was — and the chain tip is replaced by the message's
`(prev_hash, n_bits, header_timestamp)` in every non-empty case. -/
def on_set_new_prev_hash (ch : ChannelState) (msg : SetNewPrevHash) :
    Except StandardChannelError Unit × ChannelState :=
  if ch.jobStore.future.isEmpty then
    (.error .TemplateIdNotFound, ch)
  else
    (.ok (),
     { ch with
       jobStore := match ch.jobStore.activate_future_job msg.templateId msg.headerTimestamp with
                   | .ok js => js
                   | .error _ => ch.jobStore,
       chainTip := some { prevHash := msg.prevHash, nbits := msg.nBits,
                          headerTimestamp := msg.headerTimestamp } })

/-- Check whether the submitted `job_id` is the active job's
(standard.rs, lines 338-341). -/
def jobIdIsActive (ch : ChannelState) (jobId : Nat) : Bool :=
  match ch.jobStore.active with
  | some job => job.jobId == jobId
  | none => false

/-- Check whether the submitted `job_id` is a past job's (standard.rs, line 344). -/
def jobIdIsPast (ch : ChannelState) (jobId : Nat) : Bool :=
  (ch.jobStore.past.lookup jobId).isSome

/-- Check whether the submitted `job_id` is a stale job's (standard.rs, line 347). -/
def jobIdIsStale (ch : ChannelState) (jobId : Nat) : Bool :=
  (ch.jobStore.stale.lookup jobId).isSome

/-- Job resolution of `validate_share` (standard.rs, lines 358-372):
active first, then past, then stale; the source's `expect` calls (only
reachable on store-invariant violations) are modelled by a default. -/
def resolveJob (ch : ChannelState) (jobId : Nat) : StandardJob :=
  if jobIdIsActive ch jobId then ch.jobStore.active.getD defaultStandardJob
  else if jobIdIsPast ch jobId then (ch.jobStore.past.lookup jobId).getD defaultStandardJob
  else (ch.jobStore.stale.lookup jobId).getD defaultStandardJob

/-- Header reconstruction of `validate_share` (standard.rs, lines 389-396). -/
def shareHeader (job : StandardJob) (tip : ChainTip) (share : SubmitSharesStandard) : Header :=
  { version := share.version, prevBlockhash := tip.prevHash, merkleRoot := job.merkleRoot,
    time := share.ntime, bits := tip.nbits, nonce := share.nonce }

/-- Coinbase reconstruction of the block-found branch of
`validate_share` (standard.rs, lines 428-443). -/
def jobCoinbase (job : StandardJob) : CoinbaseTx :=
  { version := job.template.coinbaseTxVersion,
    lockTime := job.template.coinbaseTxLocktime,
    scriptSig := job.template.coinbasePfx ++ job.extranoncePfx,
    sequence := job.template.coinbaseTxInputSequence,
    witness := [List.replicate 32 0],
    outputs := job.coinbaseOutputs }

/-- Operation `StandardChannel::validate_share` (standard.rs, lines
331-488).  Order of the source: resolve the job id (stale → `Stale`;
unknown → `InvalidJobId`); require a chain tip (`NoChainTip`);
reconstruct the header and hash it; if the hash meets the network target
(decoded from the tip's nBits, inclusive) update the accounting with
`target_to_difficulty(channel.target) as u64` and return `BlockFound`
with the consensus-serialized coinbase — with no duplicate check;
otherwise if the hash meets the channel target (inclusive) reject
duplicates with `DuplicateShare`, update accounting and best diff, and
answer `ValidWithAcknowledgement` or `Valid` according to
`should_acknowledge`; otherwise `DoesNotMeetTarget`. -/
def validate_share (P : SharePrims) (ch : ChannelState) (share : SubmitSharesStandard) :
    Except ShareValidationError ShareValidationResult × ChannelState :=
  if jobIdIsStale ch share.jobId then (.error .Stale, ch)
  else if !jobIdIsActive ch share.jobId && !jobIdIsPast ch share.jobId &&
          !jobIdIsStale ch share.jobId then (.error .InvalidJobId, ch)
  else
    match ch.chainTip with
    | none => (.error .NoChainTip, ch)
    | some chainTip =>
        if P.dsha (shareHeader (resolveJob ch share.jobId) chainTip share) ≤
           P.networkTargetOf chainTip.nbits then
          let sa := ch.shareAccounting.update_share_accounting (P.ttdU ch.target)
            share.sequenceNumber (P.dsha (shareHeader (resolveJob ch share.jobId) chainTip share))
          (.ok (.BlockFound (some (resolveJob ch share.jobId).template.templateId)
                 (P.encodeTx (jobCoinbase (resolveJob ch share.jobId)))),
           { ch with shareAccounting := sa })
        else if P.dsha (shareHeader (resolveJob ch share.jobId) chainTip share) ≤ ch.target then
          if ch.shareAccounting.is_share_seen
               (P.dsha (shareHeader (resolveJob ch share.jobId) chainTip share)) then
            (.error .DuplicateShare, ch)
          else
            let sa := (ch.shareAccounting.update_share_accounting (P.ttdU ch.target)
                        share.sequenceNumber
                        (P.dsha (shareHeader (resolveJob ch share.jobId) chainTip share))
                      ).update_best_diff
                        (P.ttdF (P.dsha (shareHeader (resolveJob ch share.jobId) chainTip share)))
            if sa.should_acknowledge then
              (.ok (.ValidWithAcknowledgement sa.lastSequenceNumber sa.sharesAccepted
                     sa.shareWorkSum),
               { ch with shareAccounting := sa })
            else
              (.ok .Valid, { ch with shareAccounting := sa })
        else
          (.error .DoesNotMeetTarget, ch)

end StandardChannel

end Sv2

namespace Sv2

/-- Concrete channel state used by several witnesses below; it is the
kind of state reached by the spec's S1/S5 flows. -/
def chEx : ChannelState :=
  { channelId := 1, userIdentity := "user_identity",
    extranoncePfx := List.replicate 32 1,
    requestedMaxTarget := 2 ^ 256 - 1,
    target := 2 ^ 256 / 600 - 1,
    nominalHashrate := 10,
    shareAccounting := ShareAccounting.new 100,
    expectedSharePerMinute := 1,
    jobStore := JobStore.empty,
    jobFactoryNextId := 1,
    chainTip := none }

/-- Stale job used by the C7 witness. -/
def staleJobEx : StandardJob :=
  { defaultStandardJob with jobId := 9, channelId := 1 }

/-- Channel whose store has exactly one stale job (the state after a
chain-tip change demoted the active job). -/
def chStale : ChannelState :=
  { chEx with jobStore := { JobStore.empty with stale := [(9, staleJobEx)] },
              chainTip := some { prevHash := List.replicate 32 0, nbits := 453040064,
                                 headerTimestamp := 1745596910 } }

/-- Hashing primitives whose header hash (0) meets every target: the
stale verdict of the witness is returned even though the submission
would have met the network target. -/
def pZero : SharePrims :=
  { dsha := fun _ => 0, networkTargetOf := fun _ => 2 ^ 256 - 1, ttdU := fun _ => 2,
    ttdF := fun _ => 3, encodeTx := fun _ => [], merkleRootOf := fun _ _ _ => 0 }

/-- Submission against the stale job id 9. -/
def shareStale : SubmitSharesStandard :=
  { channelId := 1, sequenceNumber := 0, jobId := 9, nonce := 3, ntime := 1745596932,
    version := 536870912 }

/-- Active job with id 1 used by the share-validation witnesses. -/
def jobEx : StandardJob :=
  { defaultStandardJob with jobId := 1, channelId := 1, version := 536870912 }

/-- Chain tip used by the share-validation witnesses. -/
def tipEx : ChainTip :=
  { prevHash := List.replicate 32 0, nbits := 453040064, headerTimestamp := 1745596910 }

/-- Channel with an active job, channel target 10 and empty seen set. -/
def chValid : ChannelState :=
  { chEx with target := 10,
              jobStore := { JobStore.empty with active := some jobEx },
              chainTip := some tipEx }

/-- Channel identical to `chValid` except that hash 5 is already in the
seen-shares set. -/
def chDup : ChannelState :=
  { chValid with shareAccounting := { ShareAccounting.new 100 with seenShares := [5] } }

/-- Hashing primitives with header hash 5 and network target 1: the hash
misses the network target but meets the channel target 10. -/
def pFive : SharePrims :=
  { dsha := fun _ => 5, networkTargetOf := fun _ => 1, ttdU := fun _ => 2,
    ttdF := fun _ => 3, encodeTx := fun _ => [], merkleRootOf := fun _ _ _ => 0 }

/-- Hashing primitives with header hash 5 and network target 100: the
hash meets the network target. -/
def pBlock : SharePrims :=
  { pFive with networkTargetOf := fun _ => 100 }

/-- Submission against the active job id 1. -/
def shareEx : SubmitSharesStandard :=
  { channelId := 1, sequenceNumber := 1, jobId := 1, nonce := 31978, ntime := 1745611105,
    version := 536870912 }

/-- Future job with template id 1, as created from the spec's S1 future
template. -/
def futureJobEx : StandardJob :=
  { defaultStandardJob with
      jobId := 1, channelId := 1, version := 536870912,
      template := { defaultStandardJob.template with templateId := 1, futureTemplate := true } }

/-- Channel holding exactly one pending future job, keyed by template id 1
(the state after the S1 `on_new_template` call). -/
def chFuture : ChannelState :=
  { chEx with jobStore := JobStore.empty.add_future_job 1 futureJobEx }

/-- Message whose `template_id` (2) identifies no pending future job of
`chFuture`. -/
def msgUnknownTemplate : SetNewPrevHash :=
  { templateId := 2, prevHash := List.replicate 32 7, headerTimestamp := 1747092633,
    nBits := 503543726, target := List.replicate 32 0 }

/-- Message matching the pending future job of `chFuture`. -/
def msgKnownTemplate : SetNewPrevHash :=
  { msgUnknownTemplate with templateId := 1 }

end Sv2

namespace Sv2.Noise

/-- Protocol version constant `VERSION` (responder.rs, line 56). -/
def VERSION : Nat := 0

/-- Little-endian encoding of a `u16` (`u16::to_le_bytes`). -/
def u16le (x : Nat) : List Nat :=
  [x % 256, x / 256 % 256]

/-- Little-endian encoding of a `u32` (`u32::to_le_bytes`). -/
def u32le (x : Nat) : List Nat :=
  [x % 256, x / 256 % 256, x / 2 ^ 16 % 256, x / 2 ^ 24 % 256]

/-- Little-endian decoding of four bytes back into a `u32` value. -/
def decodeU32le (bytes : List Nat) : Nat :=
  match bytes with
  | [b0, b1, b2, b3] => b0 + 256 * b1 + 2 ^ 16 * b2 + 2 ^ 24 * b3
  | _ => 0

/-- Handshake state of the responder: handshake hash `h`, chaining key
`ck`, optional AEAD key `k` and nonce `n` (responder.rs, lines 64-101,
restricted to the fields the handshake primitives act on). -/
structure HandshakeState where
  h : List Nat
  ck : List Nat
  k : Option (List Nat)
  n : Nat
deriving DecidableEq, Repr

/-- External cryptographic primitives of the handshake, abstracted:
SHA-256, the two-output HKDF of `hkdf_2`, and the ChaCha20-Poly1305
AEAD taking key, nonce and associated data and returning
ciphertext plus 16-byte MAC. -/
structure HandshakePrims where
  sha256 : List Nat → List Nat
  hkdf2 : List Nat → List Nat → List Nat × List Nat
  aeadEnc : Option (List Nat) → Nat → List Nat → List Nat → List Nat

/-- Modelled from the spec: `mix_hash(data)` (§4.6) — the `HandshakeOp`
implementation of `noise-sv2/src/handshake.rs` is not under `src/`.
Sets `h ← SHA256(h || data)`. -/
def mix_hash (P : HandshakePrims) (st : HandshakeState) (data : List Nat) : HandshakeState :=
  { st with h := P.sha256 (st.h ++ data) }

/-- Modelled from the spec: `mix_key(data)` (§4.6) —
`(ck, temp_k) = HKDF(ck, data, 2)`; install `temp_k` as the current AEAD
key and reset the nonce. -/
def mix_key (P : HandshakePrims) (st : HandshakeState) (data : List Nat) : HandshakeState :=
  { st with ck := (P.hkdf2 st.ck data).1, k := some (P.hkdf2 st.ck data).2, n := 0 }

/-- Modelled from the spec: `encrypt_and_hash(buf)` (§4.6) —
AEAD-encrypt with key `k`, nonce `n` and associated data `h`, append the
16-byte MAC (folded into the abstract `aeadEnc`), `mix_hash` the
ciphertext and increment `n`. -/
def encrypt_and_hash (P : HandshakePrims) (st : HandshakeState) (buf : List Nat) :
    List Nat × HandshakeState :=
  (P.aeadEnc st.k st.n st.h buf,
   { mix_hash P st (P.aeadEnc st.k st.n st.h buf) with n := st.n + 1 })

/-- Modelled from the spec: `decrypt_and_hash` on the empty buffer
(§4.6, step 2 of `step_1`) — absorbs the empty AEAD payload, mixing `h`
and incrementing `n`. -/
def decrypt_and_hash_empty (P : HandshakePrims) (st : HandshakeState) : HandshakeState :=
  { mix_hash P st [] with n := st.n + 1 }

/-- Abstract secp256k1-derived inputs of `step_1`: the ElligatorSwift
encodings of the responder's ephemeral and static public keys, the two
ECDH shared secrets, and the 64-byte Schnorr signature that
`SignatureNoiseMessage::sign_with_rng` writes into the message. -/
structure Step1Args where
  ellswiftOursEphemeral : List Nat
  ellswiftOursStatic : List Nat
  ecdhEphemeral : List Nat
  ecdhStatic : List Nat
  sig : List Nat
deriving DecidableEq, Repr

/-- Method `Responder::get_signature` (responder.rs, lines 399-422):
a 74-byte message `version_le(2) || valid_from_le(4) ||
not_valid_after_le(4) || sig(64)`; the signing itself is external and
enters as the abstract 64-byte `sig`. -/
def get_signature (version validFrom notValidAfter : Nat) (sig : List Nat) : List Nat :=
  u16le version ++ u32le validFrom ++ u32le notValidAfter ++ sig

/-- Expiry computed by `step_1_with_now_rng` (responder.rs, line 360):
`let not_valid_after = now + self.cert_validity;` in `u32` arithmetic,
i.e. reduced modulo `2^32` on overflow. -/
def step1NotValidAfter (now certValidity : Nat) : Nat :=
  (now + certValidity) % 2 ^ 32

/-- Truncation performed by `Responder::from_authority_kp_with_rng`
(responder.rs, line 248): the certificate validity handed to the
responder is `cert_validity.as_secs() as u32`, the Duration's whole
seconds reduced modulo `2^32`. -/
def from_authority_kp_cert_validity (durationSecs : Nat) : Nat :=
  durationSecs % 2 ^ 32

/-- Handshake state after steps 1-4 of `step_1_with_now_rng`
(responder.rs, lines 302-331): mix the initiator's ephemeral encoding,
absorb the empty payload, mix our ephemeral encoding and mix in the
ephemeral ECDH secret. -/
def step1PreStatic (P : HandshakePrims) (A : Step1Args) (st : HandshakeState)
    (theirsEph : List Nat) : HandshakeState :=
  mix_key P
    (mix_hash P (decrypt_and_hash_empty P (mix_hash P st theirsEph)) A.ellswiftOursEphemeral)
    A.ecdhEphemeral

/-- Step 5 of `step_1_with_now_rng` (responder.rs, lines 335-343):
encrypt the ElligatorSwift encoding of the static public key. -/
def step1EncStatic (P : HandshakePrims) (A : Step1Args) (st : HandshakeState)
    (theirsEph : List Nat) : List Nat × HandshakeState :=
  encrypt_and_hash P (step1PreStatic P A st theirsEph) A.ellswiftOursStatic

/-- Step 6 of `step_1_with_now_rng` (responder.rs, lines 346-356): mix
in the static ECDH secret. -/
def step1PreSig (P : HandshakePrims) (A : Step1Args) (st : HandshakeState)
    (theirsEph : List Nat) : HandshakeState :=
  mix_key P (step1EncStatic P A st theirsEph).2 A.ecdhStatic

/-- Signature noise message built in step 7 of `step_1_with_now_rng`
(responder.rs, lines 358-361): `valid_from = now`,
`not_valid_after = now + cert_validity`. -/
def step1SigMsg (A : Step1Args) (now certValidity : Nat) : List Nat :=
  get_signature VERSION now (step1NotValidAfter now certValidity) A.sig

/-- Step 7 of `step_1_with_now_rng` (responder.rs, lines 358-368):
encrypt the signature noise message. -/
def step1EncSig (P : HandshakePrims) (A : Step1Args) (st : HandshakeState)
    (theirsEph : List Nat) (now certValidity : Nat) : List Nat × HandshakeState :=
  encrypt_and_hash P (step1PreSig P A st theirsEph) (step1SigMsg A now certValidity)

/-- Method `Responder::step_1_with_now_rng` (responder.rs, lines
295-390), output buffer and final handshake state: the 234-byte output
is `out[0..64] = ellswift ephemeral`, `out[64..144] = encrypted static
encoding` and `out[144..234] = encrypted signature message` (the
`copy_from_slice` calls copy exactly 64, 80 and 90 bytes; they are
modelled by `take`, total when the inputs have the documented lengths).
The cipher split of step 9 acts on the abstract HKDF outputs and is not
part of the buffer. -/
def step_1 (P : HandshakePrims) (A : Step1Args) (st : HandshakeState)
    (theirsEph : List Nat) (now certValidity : Nat) : List Nat × HandshakeState :=
  (A.ellswiftOursEphemeral.take 64 ++ (step1EncStatic P A st theirsEph).1.take 80 ++
     (step1EncSig P A st theirsEph now certValidity).1.take 90,
   (step1EncSig P A st theirsEph now certValidity).2)

/-- Secp256k1 key pair, reduced to its byte content. -/
structure Keypair where
  secretKeyBytes : List Nat
  publicKeyBytes : List Nat
deriving DecidableEq, Repr

/-- External secp256k1 `Keypair::non_secure_erase`: overwrites the
secret-key bytes with zeros (its missing volatility guarantee is a
compiler-level property outside a value-level model). -/
def Keypair.non_secure_erase (kp : Keypair) : Keypair :=
  { kp with secretKeyBytes := kp.secretKeyBytes.map fun _ => 0 }

/-- Modelled from the spec: a post-handshake cipher state
(`GenericCipher` of `noise-sv2/src/cipher_state.rs`, not under `src/`),
reduced to its stored key bytes. -/
structure Cipher where
  keyBytes : List Nat
deriving DecidableEq, Repr

/-- Modelled from the spec: `GenericCipher::erase_k` zeroes the stored key. -/
def Cipher.erase_k (c : Cipher) : Cipher :=
  { c with keyBytes := c.keyBytes.map fun _ => 0 }

/-- Fields of `Responder` (responder.rs, lines 64-101); the transient
`handshake_cipher` is carried as its key bytes. -/
structure Responder where
  handshakeCipher : Option (List Nat)
  k : Option (List Nat)
  n : Nat
  ck : List Nat
  h : List Nat
  e : Keypair
  s : Keypair
  a : Keypair
  c1 : Option Cipher
  c2 : Option Cipher
  certValidity : Nat
deriving DecidableEq, Repr

/-- Embedding of the loops at responder.rs lines 436-441:
`for mut b in self.ck { unsafe { ptr::write_volatile(&mut b, 0) }; }`
(and the identical loop over `self.h`).  `self.ck` has type `[u8; 32]`,
which is `Copy`, so `for mut b in self.ck` iterates over a by-value copy
of the array: each `b` is a stack-local copy of one byte and the
volatile write overwrites that local.  The field itself is never
written, so the loop's effect on the responder state is the identity. -/
def write_volatile_by_value_loop (bytes : List Nat) : List Nat :=
  bytes

/-- Method `Responder::erase` (responder.rs, lines 430-451), which
`Drop::drop` (lines 454-459) invokes: zero `k` in place (that loop
iterates over `&mut [u8; 32]`, so its writes land in the field), run the
by-value loops over `ck` and `h`, `erase_k` the ciphers `c1` and `c2`
when present, and `non_secure_erase` the three keypairs. -/
def Responder.erase (r : Responder) : Responder :=
  { r with
    k := r.k.map (fun kBytes => kBytes.map fun _ => 0),
    ck := write_volatile_by_value_loop r.ck,
    h := write_volatile_by_value_loop r.h,
    c1 := r.c1.map Cipher.erase_k,
    c2 := r.c2.map Cipher.erase_k,
    e := r.e.non_secure_erase,
    s := r.s.non_secure_erase,
    a := r.a.non_secure_erase }

/-- Responder state with nonzero secret material everywhere, as after a
handshake (`ck` and `h` are never zero from initialization on, since `h`
starts as the SHA-256 of the protocol name and `ck` copies it). -/
def responderEx : Responder :=
  { handshakeCipher := none,
    k := some (List.replicate 32 4), n := 0,
    ck := List.replicate 32 1, h := List.replicate 32 2,
    e := { secretKeyBytes := List.replicate 32 5, publicKeyBytes := List.replicate 64 6 },
    s := { secretKeyBytes := List.replicate 32 7, publicKeyBytes := List.replicate 64 8 },
    a := { secretKeyBytes := List.replicate 32 9, publicKeyBytes := List.replicate 64 10 },
    c1 := some { keyBytes := List.replicate 32 11 },
    c2 := some { keyBytes := List.replicate 32 12 },
    certValidity := 3600 }

/-- Concrete handshake primitives for the witnesses: the AEAD appends a
16-byte MAC to the plaintext, satisfying the length contract. -/
def hsPrimsEx : HandshakePrims :=
  { sha256 := fun _ => List.replicate 32 0,
    hkdf2 := fun _ _ => (List.replicate 32 0, List.replicate 32 0),
    aeadEnc := fun _ _ _ pt => pt ++ List.replicate 16 0 }

/-- Concrete `step_1` inputs for the witnesses. -/
def step1ArgsEx : Step1Args :=
  { ellswiftOursEphemeral := List.replicate 64 1,
    ellswiftOursStatic := List.replicate 64 2,
    ecdhEphemeral := List.replicate 32 3,
    ecdhStatic := List.replicate 32 4,
    sig := List.replicate 64 9 }

/-- Concrete initial handshake state for the witnesses. -/
def hsStateEx : HandshakeState :=
  { h := List.replicate 32 0, ck := List.replicate 32 0, k := none, n := 0 }

end Sv2.Noise

namespace Sv2

open StandardChannel

/-- Claim C5: `StandardChannel::update_channel` is atomic — on any
failure (`InvalidNominalHashrate` from the recomputation, or
`RequestedMaxTargetOutOfRange` when the new target exceeds the effective
max) the stored target, nominal hashrate and requested max target are
all unchanged; on success all three are committed, with
`requested_max_target` defaulting to the cached value when the argument
is `None`. -/
theorem update_channel_atomic :
    (∀ (ch : ChannelState) (hr : ℚ) (rmt : Option Nat) (e : StandardChannelError)
       (ch' : ChannelState),
       StandardChannel.update_channel ch hr rmt = (.error e, ch') → ch' = ch) ∧
    (∀ (ch : ChannelState) (hr : ℚ) (rmt : Option Nat) (ch' : ChannelState),
       StandardChannel.update_channel ch hr rmt = (.ok (), ch') →
       ∃ t : Nat, hash_rate_to_target hr ch.expectedSharePerMinute = .ok t ∧
         ch' = { ch with target := t,
                         nominalHashrate := hr,
                         requestedMaxTarget := rmt.getD ch.requestedMaxTarget }) := by
  constructor
  · intro ch hr rmt e ch' hrun
    unfold StandardChannel.update_channel at hrun
    split at hrun
    · exact (Prod.mk.injEq _ _ _ _ ▸ hrun).2.symm ▸ rfl
    · simp only at hrun
      split at hrun
      · exact (Prod.mk.injEq _ _ _ _ ▸ hrun).2.symm ▸ rfl
      · simp at hrun
  · intro ch hr rmt ch' hrun
    unfold StandardChannel.update_channel at hrun
    split at hrun
    · simp at hrun
    · next t heq =>
      simp only at hrun
      split at hrun
      · simp at hrun
      · refine ⟨t, heq, ?_⟩
        exact ((Prod.mk.injEq _ _ _ _ ▸ hrun).2).symm

/-- Witness for C5: a successful `update_channel(100, None)` on `chEx`
commits the recomputed target, the new hashrate and the cached max. -/
theorem update_channel_atomic_witness :
    ∃ t : Nat, hash_rate_to_target 100 chEx.expectedSharePerMinute = .ok t ∧
      (StandardChannel.update_channel chEx 100 none).2 =
        { chEx with target := t,
                    nominalHashrate := 100,
                    requestedMaxTarget := (none : Option Nat).getD chEx.requestedMaxTarget } :=
  update_channel_atomic.2 chEx 100 none (StandardChannel.update_channel chEx 100 none).2
    (by rfl)

/-- Claim C6: the invariant `target ≤ requested_max_target` holds
immediately after a successful `StandardChannel::new` and is preserved
by every successful `update_channel`; both entry points reject with
`RequestedMaxTargetOutOfRange` any state where the derived target would
exceed the requested max. -/
theorem target_le_requested_max_target :
    (∀ (cid : Nat) (uid : String) (ep : List Nat) (rmt : Nat) (nh : ℚ)
       (sbs : Nat) (espm : ℚ) (js : JobStore) (ch : ChannelState),
       StandardChannel.new cid uid ep rmt nh sbs espm js = .ok ch →
       ch.target ≤ ch.requestedMaxTarget) ∧
    (∀ (ch : ChannelState) (hr : ℚ) (rmt : Option Nat) (ch' : ChannelState),
       StandardChannel.update_channel ch hr rmt = (.ok (), ch') →
       ch'.target ≤ ch'.requestedMaxTarget) := by
  constructor
  · intro cid uid ep rmt nh sbs espm js ch hrun
    unfold StandardChannel.new at hrun
    split at hrun
    · exact Except.noConfusion hrun
    · split at hrun
      · exact Except.noConfusion hrun
      · next hle =>
        cases hrun
        exact Nat.le_of_not_lt hle
  · intro ch hr rmt ch' hrun
    unfold StandardChannel.update_channel at hrun
    split at hrun
    · simp at hrun
    · simp only at hrun
      split at hrun
      · simp at hrun
      · next hle =>
        cases hrun
        exact Nat.le_of_not_lt hle

/-- Witness for C6: the channel built from the spec's S1 parameters
(hashrate 10, one share per minute, permissive max target) satisfies the
invariant, and so does `chEx` after a successful update. -/
theorem target_le_requested_max_target_witness :
    (∀ ch : ChannelState,
       StandardChannel.new 1 "user_identity" (List.replicate 32 1) (2 ^ 256 - 1) 10 100 1
         JobStore.empty = .ok ch →
       ch.target ≤ ch.requestedMaxTarget) ∧
    (StandardChannel.update_channel chEx 100 none).2.target ≤
      (StandardChannel.update_channel chEx 100 none).2.requestedMaxTarget :=
  ⟨fun ch h => target_le_requested_max_target.1 1 "user_identity" (List.replicate 32 1)
      (2 ^ 256 - 1) 10 100 1 JobStore.empty ch h,
   target_le_requested_max_target.2 chEx 100 none
     (StandardChannel.update_channel chEx 100 none).2 (by rfl)⟩

/-- Claim C7: `validate_share` resolves the submitted `job_id` before
any hashing — a stale job id yields `Stale` (for every choice of the
hashing primitives, hence even for a submission that would meet the
network target), a job id in none of active, past or stale yields
`InvalidJobId`, and in both cases the channel state is unchanged. -/
theorem validate_share_job_resolution :
    (∀ (P : SharePrims) (ch : ChannelState) (share : SubmitSharesStandard),
       jobIdIsStale ch share.jobId = true →
       validate_share P ch share = (.error .Stale, ch)) ∧
    (∀ (P : SharePrims) (ch : ChannelState) (share : SubmitSharesStandard),
       jobIdIsActive ch share.jobId = false →
       jobIdIsPast ch share.jobId = false →
       jobIdIsStale ch share.jobId = false →
       validate_share P ch share = (.error .InvalidJobId, ch)) := by
  constructor
  · intro P ch share hstale
    unfold validate_share
    simp [hstale]
  · intro P ch share ha hp hs
    unfold validate_share
    simp [ha, hp, hs]

/-- Witness for C7: the submission against the stale job id is rejected
with `Stale` and the state is untouched, although its hash would have
met the network target. -/
theorem validate_share_job_resolution_witness :
    validate_share pZero chStale shareStale = (.error .Stale, chStale) :=
  validate_share_job_resolution.1 pZero chStale shareStale (by rfl)

/-- Claim C2: inside `validate_share`, once the job id resolves to a
non-stale job and the chain tip is set, the network-target check comes
first — whenever the header hash is at most the network target decoded
from the tip's nBits, the accounting is updated with difficulty
`target_to_difficulty(channel.target) as u64` and the call returns
`BlockFound` carrying the job's template id and the consensus-serialized
coinbase rebuilt from the job.  No hypothesis about the seen-shares set
or the channel target is needed: a found block is reported even for a
hash submitted before. -/
theorem validate_share_block_found :
    ∀ (P : SharePrims) (ch : ChannelState) (share : SubmitSharesStandard) (tip : ChainTip),
      jobIdIsStale ch share.jobId = false →
      (jobIdIsActive ch share.jobId = true ∨ jobIdIsPast ch share.jobId = true) →
      ch.chainTip = some tip →
      P.dsha (shareHeader (resolveJob ch share.jobId) tip share) ≤
        P.networkTargetOf tip.nbits →
      validate_share P ch share =
        (.ok (.BlockFound (some (resolveJob ch share.jobId).template.templateId)
               (P.encodeTx (jobCoinbase (resolveJob ch share.jobId)))),
         { ch with shareAccounting :=
             (ch.shareAccounting.update_share_accounting (P.ttdU ch.target)
               share.sequenceNumber
               (P.dsha (shareHeader (resolveJob ch share.jobId) tip share))) }) := by
  intro P ch share tip hstale hresol htip hnet
  unfold validate_share
  rcases hresol with ha | hp
  · simp [hstale, ha, htip, hnet]
  · simp [hstale, hp, htip, hnet]

/-- Witness for C2: a block is found on `chDup` although its hash (5) is
already in the seen-shares set — the block-found branch never consults
it — and the accounting is updated with the `u64` difficulty of the
channel target. -/
theorem validate_share_block_found_witness :
    validate_share pBlock chDup shareEx =
      (.ok (.BlockFound (some 0) []),
       { chDup with shareAccounting :=
           (chDup.shareAccounting.update_share_accounting 2 1 5) }) :=
  validate_share_block_found pBlock chDup shareEx tipEx (by rfl) (.inl (by rfl)) (by rfl)
    (by decide)

/-- Claim C1: a `validate_share` call that answers `Valid` (or
`ValidWithAcknowledgement`) did so for a header hash that is at most the
channel target (inclusive) and was not in the seen-shares set at the
moment of the verdict; and whenever the flow reaches the channel-target
branch with a hash that is already seen, the call answers
`DuplicateShare` and leaves the channel state (hence the share
accounting) unchanged. -/
theorem validate_share_valid_fresh :
    (∀ (P : SharePrims) (ch ch' : ChannelState) (share : SubmitSharesStandard)
       (res : ShareValidationResult),
       validate_share P ch share = (.ok res, ch') →
       (res = .Valid ∨ ∃ a b c, res = .ValidWithAcknowledgement a b c) →
       ∃ tip, ch.chainTip = some tip ∧
         P.dsha (shareHeader (resolveJob ch share.jobId) tip share) ≤ ch.target ∧
         ch.shareAccounting.is_share_seen
           (P.dsha (shareHeader (resolveJob ch share.jobId) tip share)) = false) ∧
    (∀ (P : SharePrims) (ch : ChannelState) (share : SubmitSharesStandard) (tip : ChainTip),
       jobIdIsStale ch share.jobId = false →
       (jobIdIsActive ch share.jobId = true ∨ jobIdIsPast ch share.jobId = true) →
       ch.chainTip = some tip →
       ¬ P.dsha (shareHeader (resolveJob ch share.jobId) tip share) ≤
           P.networkTargetOf tip.nbits →
       P.dsha (shareHeader (resolveJob ch share.jobId) tip share) ≤ ch.target →
       ch.shareAccounting.is_share_seen
         (P.dsha (shareHeader (resolveJob ch share.jobId) tip share)) = true →
       validate_share P ch share = (.error .DuplicateShare, ch)) := by
  constructor
  · intro P ch ch' share res hrun hres
    unfold validate_share at hrun
    split at hrun
    · simp at hrun
    · split at hrun
      · simp at hrun
      · split at hrun
        · simp at hrun
        · next tip htip =>
          split at hrun
          · rcases hres with rfl | ⟨a, b, c, rfl⟩ <;> simp at hrun
          · next hnet =>
            split at hrun
            · next hch =>
              split at hrun
              · simp at hrun
              · next hseen =>
                exact ⟨tip, htip, hch, by simpa using hseen⟩
            · simp at hrun
  · intro P ch share tip hstale hresol htip hnet hch hseen
    unfold validate_share
    rcases hresol with ha | hp
    · simp [hstale, ha, htip, hnet, hch, hseen]
    · simp [hstale, hp, htip, hnet, hch, hseen]

/-- Witness for C1: on `chValid` the submission hashes to 5 ≤ target 10
with an empty seen set, so the verdict is `Valid` and the theorem yields
the freshness facts; on `chDup` the same hash is already seen and the
verdict is `DuplicateShare` with the state unchanged. -/
theorem validate_share_valid_fresh_witness :
    (∃ tip, chValid.chainTip = some tip ∧
       pFive.dsha (shareHeader (resolveJob chValid shareEx.jobId) tip shareEx) ≤
         chValid.target ∧
       chValid.shareAccounting.is_share_seen
         (pFive.dsha (shareHeader (resolveJob chValid shareEx.jobId) tip shareEx)) = false) ∧
    validate_share pFive chDup shareEx = (.error .DuplicateShare, chDup) :=
  ⟨validate_share_valid_fresh.1 pFive chValid (validate_share pFive chValid shareEx).2 shareEx
     .Valid (by rfl) (.inl rfl),
   validate_share_valid_fresh.2 pFive chDup shareEx tipEx (by rfl) (.inl (by rfl)) (by rfl)
     (by decide) (by decide) (by rfl)⟩

/-- Claim C9 (confirmed): a channel built by `StandardChannel::new` has
no chain tip; in that state `on_new_template` on a non-future template
returns `ChainTipNotSet` and changes nothing (in particular it adds no
job), while a future template never hits `ChainTipNotSet` and — whenever
the reward outputs fit the template's remaining value — is accepted and
recorded among the future jobs. -/
theorem chain_tip_none_after_new :
    (∀ (cid : Nat) (uid : String) (ep : List Nat) (rmt : Nat) (nh : ℚ)
       (sbs : Nat) (espm : ℚ) (js : JobStore) (ch : ChannelState),
       StandardChannel.new cid uid ep rmt nh sbs espm js = .ok ch → ch.chainTip = none) ∧
    (∀ (P : SharePrims) (ch : ChannelState) (t : NewTemplate) (outs : List TxOut),
       ch.chainTip = none → t.futureTemplate = false →
       on_new_template P ch t outs = (.error .ChainTipNotSet, ch)) ∧
    (∀ (P : SharePrims) (ch : ChannelState) (t : NewTemplate) (outs : List TxOut),
       t.futureTemplate = true →
       (on_new_template P ch t outs).1 ≠ .error .ChainTipNotSet) ∧
    (∀ (P : SharePrims) (ch : ChannelState) (t : NewTemplate) (outs : List TxOut),
       t.futureTemplate = true →
       sumOutputs outs ≤ t.coinbaseTxValueRemaining →
       (on_new_template P ch t outs).1 = .ok () ∧
       ((on_new_template P ch t outs).2.jobStore.future.lookup t.templateId).isSome = true) := by
  refine ⟨?_, ?_, ?_, ?_⟩
  · intro cid uid ep rmt nh sbs espm js ch hrun
    unfold StandardChannel.new at hrun
    split at hrun
    · exact Except.noConfusion hrun
    · split at hrun
      · exact Except.noConfusion hrun
      · cases hrun
        rfl
  · intro P ch t outs hctip hfut
    unfold on_new_template
    simp [hfut, hctip]
  · intro P ch t outs hfut
    unfold on_new_template
    simp only [hfut]
    split
    · next e heq =>
      unfold new_standard_job at heq
      split at heq
      · cases heq
        simp
      · exact Except.noConfusion heq
    · simp
  · intro P ch t outs hfut hsum
    unfold on_new_template new_standard_job
    simp [hfut, Nat.not_lt.mpr hsum, JobStore.add_future_job]

/-- Witness for C9: the channel built from the spec's S1 parameters has
no chain tip; on it a non-future template is rejected with
`ChainTipNotSet`, and a future template fitting the remaining value is
accepted and stored. -/
theorem chain_tip_none_after_new_witness :
    (∀ ch : ChannelState,
       StandardChannel.new 1 "user_identity" (List.replicate 32 1) (2 ^ 256 - 1) 10 100 1
         JobStore.empty = .ok ch → ch.chainTip = none) ∧
    on_new_template pZero chEx { defaultStandardJob.template with templateId := 1 } [] =
      (.error .ChainTipNotSet, chEx) ∧
    (on_new_template pZero chEx
       { defaultStandardJob.template with templateId := 1, futureTemplate := true } []).1 =
      .ok () :=
  ⟨fun ch h => chain_tip_none_after_new.1 1 "user_identity" (List.replicate 32 1)
     (2 ^ 256 - 1) 10 100 1 JobStore.empty ch h,
   chain_tip_none_after_new.2.1 pZero chEx { defaultStandardJob.template with templateId := 1 }
     [] (by rfl) (by rfl),
   (chain_tip_none_after_new.2.2.2 pZero chEx
     { defaultStandardJob.template with templateId := 1, futureTemplate := true } []
     (by rfl) (by decide)).1⟩

/-- Claim C3, amended: `on_set_new_prev_hash` fails with
`TemplateIdNotFound` — leaving the whole state unchanged — exactly when
the future-jobs collection is empty; whenever at least one future job
exists the call succeeds and replaces the chain tip by
`(prev_hash, n_bits, header_timestamp)` even if `msg.template_id`
matches no future job (the source discards the result of
`activate_future_job`); when the template id is found, that future job
becomes the active job with `min_ntime = header_timestamp`. -/
theorem on_set_new_prev_hash_future_empty_check :
    (∀ (ch : ChannelState) (msg : SetNewPrevHash),
       ch.jobStore.future = [] →
       on_set_new_prev_hash ch msg = (.error .TemplateIdNotFound, ch)) ∧
    (∀ (ch : ChannelState) (msg : SetNewPrevHash),
       ch.jobStore.future ≠ [] →
       (on_set_new_prev_hash ch msg).1 = .ok () ∧
       (on_set_new_prev_hash ch msg).2.chainTip =
         some { prevHash := msg.prevHash, nbits := msg.nBits,
                headerTimestamp := msg.headerTimestamp }) ∧
    (∀ (ch : ChannelState) (msg : SetNewPrevHash) (job : StandardJob),
       ch.jobStore.future.lookup msg.templateId = some job →
       (on_set_new_prev_hash ch msg).2.jobStore.active =
         some { job with minNtime := some msg.headerTimestamp }) := by
  refine ⟨?_, ?_, ?_⟩
  · intro ch msg hempty
    unfold on_set_new_prev_hash
    simp [hempty]
  · intro ch msg hne
    have hisEmpty : ch.jobStore.future.isEmpty = false := by
      cases hf : ch.jobStore.future with
      | nil => exact absurd hf hne
      | cons a l => simp [hf]
    unfold on_set_new_prev_hash
    simp [hisEmpty]
  · intro ch msg job hlookup
    have hisEmpty : ch.jobStore.future.isEmpty = false := by
      cases hf : ch.jobStore.future with
      | nil => rw [hf] at hlookup; simp [List.lookup] at hlookup
      | cons a l => simp [hf]
    unfold on_set_new_prev_hash
    simp [hisEmpty, JobStore.activate_future_job, hlookup]

/-- Counterexample to C3 as stated: on a channel with one pending future
job (template id 1), `on_set_new_prev_hash` with `template_id = 2` —
which identifies no pending future job — does NOT fail with
`TemplateIdNotFound`: it returns `Ok` and replaces the chain tip. -/
theorem on_set_new_prev_hash_unknown_template_id_accepted :
    chFuture.jobStore.future.lookup 2 = none ∧
    (on_set_new_prev_hash chFuture msgUnknownTemplate).1 = .ok () ∧
    (on_set_new_prev_hash chFuture msgUnknownTemplate).2.chainTip =
      some { prevHash := List.replicate 32 7, nbits := 503543726,
             headerTimestamp := 1747092633 } :=
  ⟨rfl, rfl, rfl⟩

/-- Witness for the amended C3: the empty-future channel `chEx` is
rejected with `TemplateIdNotFound` unchanged, and on `chFuture` the
matching template id activates the future job with the message's
timestamp. -/
theorem on_set_new_prev_hash_future_empty_check_witness :
    on_set_new_prev_hash chEx msgKnownTemplate = (.error .TemplateIdNotFound, chEx) ∧
    (on_set_new_prev_hash chFuture msgKnownTemplate).2.jobStore.active =
      some { futureJobEx with minNtime := some 1747092633 } :=
  ⟨on_set_new_prev_hash_future_empty_check.1 chEx msgKnownTemplate (by rfl),
   on_set_new_prev_hash_future_empty_check.2.2 chFuture msgKnownTemplate futureJobEx (by rfl)⟩

end Sv2

namespace Sv2.Noise

/-- Decoding inverts the little-endian `u32` encoding up to `2^32`. -/
theorem decodeU32le_u32le (x : Nat) : decodeU32le (u32le x) = x % 2 ^ 32 := by
  simp only [decodeU32le, u32le]
  omega

/-- Claim C8: a successful `step_1` output is exactly 234 bytes —
`out[0..64]` the responder's ElligatorSwift-encoded ephemeral key,
`out[64..144]` the AEAD-encrypted static encoding (64-byte plaintext
plus 16-byte MAC, so 80 bytes), `out[144..234]` the AEAD-encrypted
74-byte signature noise message (plus MAC, so 90 bytes) — and the
signature message is `version (2 bytes LE) || valid_from = now (4 bytes
LE) || not_valid_after (4 bytes LE) || signature (64 bytes)`. -/
theorem step_1_layout :
    ∀ (P : HandshakePrims) (A : Step1Args) (st : HandshakeState) (theirsEph : List Nat)
      (now certValidity : Nat),
      A.ellswiftOursEphemeral.length = 64 →
      A.ellswiftOursStatic.length = 64 →
      A.sig.length = 64 →
      (∀ k n ad pt, (P.aeadEnc k n ad pt).length = pt.length + 16) →
      (step_1 P A st theirsEph now certValidity).1.length = 234 ∧
      (step_1 P A st theirsEph now certValidity).1.take 64 = A.ellswiftOursEphemeral ∧
      ((step_1 P A st theirsEph now certValidity).1.drop 64).take 80 =
        (step1EncStatic P A st theirsEph).1 ∧
      (step1EncStatic P A st theirsEph).1.length = 64 + 16 ∧
      (step_1 P A st theirsEph now certValidity).1.drop 144 =
        (step1EncSig P A st theirsEph now certValidity).1 ∧
      (step1EncSig P A st theirsEph now certValidity).1.length = 74 + 16 ∧
      step1SigMsg A now certValidity =
        u16le VERSION ++ u32le now ++ u32le (step1NotValidAfter now certValidity) ++ A.sig ∧
      (step1SigMsg A now certValidity).length = 74 := by
  intro P A st theirsEph now certValidity hE hS hSig hAead
  have hMsgLen : (step1SigMsg A now certValidity).length = 74 := by
    simp [step1SigMsg, get_signature, u16le, u32le, hSig]
  have hEnc1 : (step1EncStatic P A st theirsEph).1.length = 80 := by
    simp [step1EncStatic, encrypt_and_hash, hAead, hS]
  have hEnc2 : (step1EncSig P A st theirsEph now certValidity).1.length = 90 := by
    simp [step1EncSig, encrypt_and_hash, hAead, hMsgLen]
  have htakeE : A.ellswiftOursEphemeral.take 64 = A.ellswiftOursEphemeral :=
    List.take_of_length_le (le_of_eq hE)
  have htake1 : (step1EncStatic P A st theirsEph).1.take 80 =
      (step1EncStatic P A st theirsEph).1 :=
    List.take_of_length_le (le_of_eq hEnc1)
  have htake2 : (step1EncSig P A st theirsEph now certValidity).1.take 90 =
      (step1EncSig P A st theirsEph now certValidity).1 :=
    List.take_of_length_le (le_of_eq hEnc2)
  refine ⟨?_, ?_, ?_, hEnc1, ?_, hEnc2, rfl, hMsgLen⟩
  · simp [step_1, htakeE, htake1, htake2, hE, hEnc1, hEnc2]
  · rw [step_1]
    simp only [htakeE, htake1, htake2]
    rw [List.append_assoc, List.take_append_of_le_length (le_of_eq hE.symm),
        List.take_of_length_le (le_of_eq hE)]
  · rw [step_1]
    simp only [htakeE, htake1, htake2]
    rw [List.append_assoc, List.drop_append_of_le_length (le_of_eq hE.symm),
        List.drop_eq_nil_of_le (le_of_eq hE), List.nil_append,
        List.take_append_of_le_length (le_of_eq hEnc1.symm), htake1]
  · rw [step_1]
    simp only [htakeE, htake1, htake2]
    have hlen : (A.ellswiftOursEphemeral ++ (step1EncStatic P A st theirsEph).1).length = 144 := by
      rw [List.length_append, hE, hEnc1]
    rw [List.drop_append_of_le_length (le_of_eq hlen.symm),
        List.drop_eq_nil_of_le (le_of_eq hlen), List.nil_append]

/-- Witness for C8: the layout theorem evaluated on the concrete
primitives and arguments gives a 234-byte output. -/
theorem step_1_layout_witness :
    (step_1 hsPrimsEx step1ArgsEx hsStateEx (List.replicate 64 3) 5 7).1.length = 234 :=
  (step_1_layout hsPrimsEx step1ArgsEx hsStateEx (List.replicate 64 3) 5 7 (by decide)
     (by decide) (by decide) (by intro k n ad pt; simp [hsPrimsEx])).1

/-- Claim C10: the expiry is `now + cert_validity` in `u32` arithmetic —
whenever the sum fits in a `u32` the signature message encodes exactly
that sum at bytes 6..10, but for overflowing inputs the encoded
`not_valid_after` is strictly less than `valid_from`; and
`from_authority_kp_with_rng` truncates the Duration's seconds with an
`as u32` cast, which is the identity below `2^32` and lossy above. -/
theorem step1_not_valid_after_wraps :
    (∀ (A : Step1Args) (now certValidity : Nat), now + certValidity < 2 ^ 32 →
       decodeU32le (((step1SigMsg A now certValidity).drop 6).take 4) = now + certValidity) ∧
    (∃ now certValidity : Nat, now < 2 ^ 32 ∧ certValidity < 2 ^ 32 ∧
       step1NotValidAfter now certValidity < now) ∧
    (∀ durationSecs : Nat, durationSecs < 2 ^ 32 →
       from_authority_kp_cert_validity durationSecs = durationSecs) ∧
    (∃ durationSecs : Nat, from_authority_kp_cert_validity durationSecs ≠ durationSecs) := by
  refine ⟨?_, ⟨2 ^ 32 - 1, 1, by decide, by decide, by decide⟩, ?_, ⟨2 ^ 32, by decide⟩⟩
  · intro A now certValidity hlt
    have hdrop : ((step1SigMsg A now certValidity).drop 6).take 4 =
        u32le (step1NotValidAfter now certValidity) := by
      simp [step1SigMsg, get_signature, u16le, u32le, VERSION]
    rw [hdrop, decodeU32le_u32le, step1NotValidAfter]
    omega
  · intro durationSecs hlt
    exact Nat.mod_eq_of_lt hlt

/-- Witness for C10: at `now = 5` and `cert_validity = 7` the encoded
expiry decodes to 12. -/
theorem step1_not_valid_after_wraps_witness :
    decodeU32le (((step1SigMsg step1ArgsEx 5 7).drop 6).take 4) = 12 :=
  step1_not_valid_after_wraps.1 step1ArgsEx 5 7 (by decide)

/-- Claim C4 fails on the code: after `Responder::erase` (hence after
`Drop`), the bytes of `ck` and `h` are NOT overwritten — the loops
iterate over by-value copies of the `Copy` arrays, so the fields keep
their old, nonzero values, contradicting the claim (and the method's own
documentation); `k`, the cipher keys and the keypairs' secret bytes are
zeroed. -/
theorem erase_leaves_ck_h_nonzero :
    responderEx.erase.ck = List.replicate 32 1 ∧
    responderEx.erase.h = List.replicate 32 2 ∧
    responderEx.erase.ck ≠ List.replicate 32 0 ∧
    responderEx.erase.h ≠ List.replicate 32 0 ∧
    responderEx.erase.k = some (List.replicate 32 0) ∧
    responderEx.erase.c1 = some { keyBytes := List.replicate 32 0 } ∧
    responderEx.erase.c2 = some { keyBytes := List.replicate 32 0 } ∧
    responderEx.erase.e.secretKeyBytes = List.replicate 32 0 ∧
    responderEx.erase.s.secretKeyBytes = List.replicate 32 0 ∧
    responderEx.erase.a.secretKeyBytes = List.replicate 32 0 := by
  decide

end Sv2.Noise
